import Mathlib

/-!
# Verification of the d2 `ModelValidation` rule engine

A shallow embedding, in Lean 4, of `src/model/ModelValidation.js`: the
`validate` pipeline (type check, numeric min/max check, length min/max
check, type-specific check), the `validateAgainstSchema` passthrough, and
the module-level type-specific validator registry.  JavaScript values are
embedded as the inductive `JSValue`; the helper predicates imported from
`d2/lib/check` (not part of the sources at hand) are modelled from the
specification.  Stateful aspects (the module-level logger and registry)
are embedded by explicit state passing (`ValState`).
-/

namespace D2

/-- The JavaScript values the validation engine manipulates: `undefined`,
`null`, booleans, numbers (embedded as rationals — the engine never relies
on floating-point rounding), strings, arrays, and objects.  The only
object fields ever read by `ModelValidation` are the four rule fields
`type`, `min`, `max`, `required`, so objects carry exactly those. -/
inductive JSValue where
  | undefined
  | null
  | bool (b : Bool)
  | num (q : ℚ)
  | str (s : String)
  | arr (elems : List JSValue)
  | obj (type min max required : JSValue)

/-- JavaScript truthiness: `undefined`, `null`, `false`, `0` and the empty
string are falsy; every other value (including arrays and objects) is
truthy. -/
def jsTruthy : JSValue → Bool
  | .undefined => false
  | .null => false
  | .bool b => b
  | .num q => !(q == 0)
  | .str s => !s.isEmpty
  | .arr _ => true
  | .obj _ _ _ _ => true

/-- Property read `v.type` (rule field), `undefined` on non-objects. -/
def JSValue.type : JSValue → JSValue
  | .obj t _ _ _ => t
  | _ => .undefined

/-- Property read `v.min` (rule field), `undefined` on non-objects. -/
def JSValue.min : JSValue → JSValue
  | .obj _ m _ _ => m
  | _ => .undefined

/-- Property read `v.max` (rule field), `undefined` on non-objects. -/
def JSValue.max : JSValue → JSValue
  | .obj _ _ m _ => m
  | _ => .undefined

/-- Property read `v.required` (rule field), `undefined` on non-objects. -/
def JSValue.required : JSValue → JSValue
  | .obj _ _ _ r => r
  | _ => .undefined

/-- The strict comparison `v === false` used by the short-circuit in
`validate`. -/
def strictEqFalse : JSValue → Bool
  | .bool false => true
  | _ => false

/-- Left-pad a digit string with zeros to width `k`. -/
def leftPadZeros (k : Nat) (s : String) : String :=
  String.mk (List.replicate (k - s.length) '0') ++ s

/-- Count and remove the factors `p` of `n` (fuelled; `fuel = n`
suffices): returns `(multiplicity, remaining cofactor)`. -/
def stripFactor (p : Nat) : Nat → Nat → Nat × Nat
  | 0, n => (0, n)
  | fuel + 1, n =>
    if n % p == 0 && 1 < n then
      let r := stripFactor p fuel (n / p)
      (r.1 + 1, r.2)
    else (0, n)

/-- `String(q)`: integral values print as plain integers; a non-integral
value whose (reduced) denominator is of the form `2^a * 5^b` — the only
shape a binary floating-point value can have — prints as its terminating
decimal expansion with no trailing zeros, as JavaScript's `String` does
(JavaScript's switch to exponential notation at magnitudes at or above
1e21 or below 1e-6 is outside the range this development evaluates).
Rationals with any other denominator are not values of any double; they
fall back to fraction form, which — like every non-integral decimal
rendering — contains a character outside `[0-9+ ]`. -/
def qToString (q : ℚ) : String :=
  if q.den = 1 then toString q.num
  else
    let s2 := stripFactor 2 q.den q.den
    let s5 := stripFactor 5 s2.2 s2.2
    if s5.2 = 1 then
      let k := Nat.max s2.1 s5.1
      let p := 10 ^ k
      let digits := q.num.natAbs * (p / q.den)
      (if q.num < 0 then "-" else "")
        ++ toString (digits / p) ++ "." ++ leftPadZeros k (toString (digits % p))
    else toString q.num ++ "/" ++ toString q.den

mutual

/-- JavaScript `String(v)` coercion (used by `[x, y].join(...)` when
building messages, by property-key lookup, and by `RegExp.test`). -/
def jsToString : JSValue → String
  | .undefined => "undefined"
  | .null => "null"
  | .bool b => cond b "true" "false"
  | .num q => qToString q
  | .str s => s
  | .arr xs => jsArrToString xs
  | .obj _ _ _ _ => "[object Object]"

/-- `Array.prototype.toString`: elements joined by a comma, with `null`
and `undefined` elements rendered as the empty string. -/
def jsArrToString : List JSValue → String
  | [] => ""
  | [.undefined] => ""
  | [.null] => ""
  | [v] => jsToString v
  | .undefined :: rest => "," ++ jsArrToString rest
  | .null :: rest => "," ++ jsArrToString rest
  | v :: rest => jsToString v ++ "," ++ jsArrToString rest

end

/-- Modelled from the spec: `isObject` from `d2/lib/check` (the check
module is not among the sources) — "rule must be a plain mapping/object";
COMPLEX accepts "an object/mapping". -/
def isObject : JSValue → Bool
  | .obj _ _ _ _ => true
  | _ => false

/-- Modelled from the spec: `isArray` from `d2/lib/check` — "value is an
ordered sequence". -/
def isArray : JSValue → Bool
  | .arr _ => true
  | _ => false

/-- Modelled from the spec: `isString` from `d2/lib/check`. -/
def isString : JSValue → Bool
  | .str _ => true
  | _ => false

/-- Numeric value of a list of decimal digits. -/
def digitsVal (cs : List Char) : Nat :=
  cs.foldl (fun a c => a * 10 + (c.toNat - 48)) 0

/-- Modelled from the spec: recognition of a "numeric string" — a decimal
numeral with optional sign and optional fractional part — returning its
numeric value. -/
def numeralNum? (s : String) : Option ℚ :=
  let core : List Char → Option ℚ := fun ds =>
    let ip := ds.takeWhile Char.isDigit
    let rest := ds.dropWhile Char.isDigit
    match rest with
    | [] => if ip.isEmpty then none else some ((digitsVal ip : ℚ))
    | '.' :: fs =>
      if fs.all Char.isDigit && !(ip.isEmpty && fs.isEmpty) then
        some ((digitsVal ip : ℚ) + (digitsVal fs : ℚ) / ((10 : ℚ) ^ fs.length))
      else none
    | _ => none
  match s.toList with
  | '+' :: ds => core ds
  | '-' :: ds => (core ds).map (fun q => -q)
  | ds => core ds

/-- Modelled from the spec: `isNumeric` from `d2/lib/check` — "value is
numeric (integer or float, optionally as numeric string)". -/
def isNumeric : JSValue → Bool
  | .num _ => true
  | .str s => (numeralNum? s).isSome
  | _ => false

/-- Modelled from the spec: `isInteger` from `d2/lib/check` — "value is an
integer". -/
def isInteger : JSValue → Bool
  | .num q => q.den == 1
  | _ => false

/-- The number a numeric value stands for in a JavaScript comparison
(meaningful exactly on the values `isNumeric` accepts). -/
def toNum : JSValue → ℚ
  | .num q => q
  | .str s => (numeralNum? s).getD 0
  | _ => 0

/-- The property read `v.length`: a number on strings and arrays,
`undefined` elsewhere. -/
def jsLength : JSValue → JSValue
  | .str s => .num (s.length : ℚ)
  | .arr xs => .num (xs.length : ℚ)
  | _ => .undefined

/-- Strict lexicographic (code-unit by code-unit) order on character
lists: JavaScript's abstract relational comparison of two strings. -/
def lexLt : List Char → List Char → Bool
  | [], [] => false
  | [], _ :: _ => true
  | _ :: _, [] => false
  | a :: as, b :: bs => if a < b then true else if b < a then false else lexLt as bs

/-- JavaScript `a >= b` as exercised by the min/max checks (both operands
numbers or numeric strings): when BOTH operands are strings JavaScript
compares them lexicographically (`a >= b` is the negation of the
string comparison `a < b`); any other pairing is compared numerically. -/
def jsGE (a b : JSValue) : Bool :=
  match a, b with
  | .str sa, .str sb => !lexLt sa.toList sb.toList
  | _, _ => decide (toNum a ≥ toNum b)

/-- JavaScript `a <= b` as exercised by the min/max checks: the negation
of `b < a`, which for two strings is lexicographic and otherwise
numeric. -/
def jsLE (a b : JSValue) : Bool :=
  match a, b with
  | .str sa, .str sb => !lexLt sb.toList sa.toList
  | _, _ => decide (toNum a ≤ toNum b)

/-- One entry of a `ValidationResult.messages` list: the objects
`{message, value}` pushed by the failed checks. -/
structure ValidationMessage where
  message : String
  value : JSValue

/-- The result object `{status, messages}` built by `validate`. -/
structure ValidationResult where
  status : Bool
  messages : List ValidationMessage

/-- `phoneNumber`: `phoneNumberRegEx.test(value)` with
`phoneNumberRegEx = /^[0-9\+ ]+$/` — the coerced string is non-empty and
made only of digits, `+` and space. -/
def phoneNumber (value : JSValue) : Bool :=
  let s := jsToString value
  !s.isEmpty && s.toList.all (fun c => c.isDigit || c == '+' || c == ' ')

/-- One entry of the type-specific validator registry: `{message,
validator}`. -/
structure TypeSpecificValidator where
  message : String
  validator : JSValue → Bool

/-- The module-level `typeSpecificValidations` registry: populated only
for `PHONENUMBER`. -/
def typeSpecificValidations : List (String × List TypeSpecificValidator) :=
  [("PHONENUMBER",
    [{ message := "Phone number can only consist of numbers and + and [space]",
       validator := phoneNumber }])]

/-- `typeValidation(value, type)`: the switch on the rule's type tag.  The
default branch logs `'No type validator found for', type` and the function
returns `false`; the emitted log entries are returned alongside the
boolean. -/
def typeValidation (value : JSValue) (type : JSValue) : Bool × List (List JSValue) :=
  match type with
  | .str s =>
    if s == "INTEGER" then (isInteger value, [])
    else if s == "NUMBER" then (isNumeric value, [])
    else if s == "COLLECTION" then (isArray value, [])
    else if s == "PHONENUMBER" || s == "EMAIL" || s == "URL" || s == "COLOR"
        || s == "PASSWORD" || s == "IDENTIFIER" || s == "TEXT" then (isString value, [])
    else if s == "COMPLEX" then (isObject value, [])
    else if s == "DATE" || s == "REFERENCE" || s == "BOOLEAN" || s == "CONSTANT" then (true, [])
    else (false, [[JSValue.str "No type validator found for", type]])
  | t => (false, [[JSValue.str "No type validator found for", t]])

/-- `isLargerThanMin(value, minValue)`:
`isNumeric(minValue) ? value >= minValue : true`, with `>=` carrying
JavaScript's relational semantics (`jsGE`). -/
def isLargerThanMin (value minValue : JSValue) : Bool :=
  if isNumeric minValue then jsGE value minValue else true

/-- `isSmallerThanMax(value, maxValue)`:
`isNumeric(maxValue) ? value <= maxValue : true`, with `<=` carrying
JavaScript's relational semantics (`jsLE`). -/
def isSmallerThanMax (value maxValue : JSValue) : Bool :=
  if isNumeric maxValue then jsLE value maxValue else true

/-- `isLargerThanLength(value, minValue)`: `true` for a non-integer bound;
otherwise `Boolean(value && isInteger(value.length) && value.length >=
minValue)` — note the truthiness test on `value` itself. -/
def isLargerThanLength (value minValue : JSValue) : Bool :=
  if !isInteger minValue then true
  else jsTruthy value && isInteger (jsLength value)
    && decide (toNum (jsLength value) ≥ toNum minValue)

/-- `isSmallerThanLength(value, maxValue)`: `true` for a non-integer
bound; otherwise `Boolean(value && isInteger(value.length) &&
value.length <= maxValue)`. -/
def isSmallerThanLength (value maxValue : JSValue) : Bool :=
  if !isInteger maxValue then true
  else jsTruthy value && isInteger (jsLength value)
    && decide (toNum (jsLength value) ≤ toNum maxValue)

/-- `numberMinMaxValidation(value, validationSettings)`: when the value is
numeric, check it against a numeric `min` and a numeric `max`, appending
one message per failed bound (`[text, bound].join(' ')`). -/
def numberMinMaxValidation (value validationSettings : JSValue) : ValidationResult :=
  if isNumeric value then
    let r0 : ValidationResult := { status := true, messages := [] }
    let r1 := if !isLargerThanMin value validationSettings.min then
        { status := false,
          messages := r0.messages
            ++ [{ message := "Value needs to be larger than or equal to "
                    ++ jsToString validationSettings.min,
                  value := value }] }
      else r0
    if !isSmallerThanMax value validationSettings.max then
        { status := false,
          messages := r1.messages
            ++ [{ message := "Value needs to be smaller than or equal to "
                    ++ jsToString validationSettings.max,
                  value := value }] }
      else r1
  else { status := true, messages := [] }

/-- `lengthMinMaxValidation(value, validationSettings)`: when the value is
an array or a string, check its length against an integral `min` and an
integral `max`, appending one message per failed bound. -/
def lengthMinMaxValidation (value validationSettings : JSValue) : ValidationResult :=
  if isArray value || isString value then
    let r0 : ValidationResult := { status := true, messages := [] }
    let r1 := if !isLargerThanLength value validationSettings.min then
        { status := false,
          messages := r0.messages
            ++ [{ message := "Value needs to be longer than or equal to "
                    ++ jsToString validationSettings.min,
                  value := value }] }
      else r0
    if !isSmallerThanLength value validationSettings.max then
        { status := false,
          messages := r1.messages
            ++ [{ message := "Value needs to be shorter than or equal to "
                    ++ jsToString validationSettings.max,
                  value := value }] }
      else r1
  else { status := true, messages := [] }

/-- `minMaxValidation(result, value, validationSettings)`: merge the
numeric-bounds result then the length-bounds result into `result`; on a
failed sub-check the status is set to `false` and the sub-check's messages
are concatenated. -/
def minMaxValidation (result : ValidationResult) (value validationSettings : JSValue) :
    ValidationResult :=
  let n := numberMinMaxValidation value validationSettings
  let result := if !n.status then
      { status := false, messages := result.messages ++ n.messages }
    else result
  let l := lengthMinMaxValidation value validationSettings
  if !l.status then
    { status := false, messages := result.messages ++ l.messages }
  else result

/-- `typeSpecificValidation(result, value, valueType)`: a no-op when the
type tag is falsy or the registry holds no validator array for it (the
lookup key is string-coerced, as JavaScript property access does).
Otherwise every registered validator runs; each failure pushes its message
onto `result.messages`, and `result.status` is then ASSIGNED the reduce
outcome (which starts at `true`) — faithfully reproducing the source,
where an earlier `false` status can be overwritten back to `true`. -/
def typeSpecificValidation (registry : List (String × List TypeSpecificValidator))
    (result : ValidationResult) (value valueType : JSValue) : ValidationResult :=
  match (if jsTruthy valueType then
          (registry.find? (fun p => p.1 == jsToString valueType)).map Prod.snd
        else none) with
  | none => result
  | some validators =>
    let folded := validators.foldl
      (fun acc cv =>
        if !cv.validator value then
          (acc.1 ++ [{ message := cv.message, value := value }], false)
        else acc)
      (result.messages, true)
    { status := folded.2, messages := folded.1 }

/-- The module-level mutable state read by `validate`: the type-specific
validator registry and the logger's output. -/
structure ValState where
  registry : List (String × List TypeSpecificValidator)
  log : List (List JSValue)

/-- The non-short-circuit body of `validate`: type check (whose failure
pushes the type message), `minMaxValidation`, `typeSpecificValidation`;
also returns the log entries emitted by the type check. -/
def runChecks (registry : List (String × List TypeSpecificValidator))
    (validationSettings value : JSValue) : ValidationResult × List (List JSValue) :=
  let tv := typeValidation value validationSettings.type
  let result : ValidationResult :=
    if !tv.1 then
      { status := false, messages := [{ message := "This is not a valid type", value := value }] }
    else { status := true, messages := [] }
  let result := minMaxValidation result value validationSettings
  let result := typeSpecificValidation registry result value validationSettings.type
  (result, tv.2)

/-- `validate(validationSettings, value)` with the module state passed
explicitly: throws (as `Except.error`) when the settings are not an
object; returns `{status: true, messages: []}` untouched-state when
`required === false` and the value is falsy; otherwise runs the three
checks and appends any emitted log entries to the state. -/
def validateRun (s : ValState) (validationSettings value : JSValue) :
    Except String ValidationResult × ValState :=
  if !isObject validationSettings then
    (.error "validationSettings should be of type object", s)
  else if strictEqFalse validationSettings.required && !jsTruthy value then
    (.ok { status := true, messages := [] }, s)
  else
    let r := runChecks s.registry validationSettings value
    (.ok r.1, { s with log := s.log ++ r.2 })

/-- The module state as initialized at load: the `PHONENUMBER` registry
and an empty log. -/
def initState : ValState :=
  { registry := typeSpecificValidations, log := [] }

/-- `validate` on the module's own state. -/
def validate (validationSettings value : JSValue) : Except String ValidationResult :=
  (validateRun initState validationSettings value).1

/-- Modelled from the spec: the `model` argument of
`validateAgainstSchema` (the Model class is not among the sources).  The
source reads exactly: the truthiness of `model`, of
`model.modelDefinition`, the value `model.modelDefinition.name`, and
`model.modelDefinition.getOwnedPropertyJSON(model)` (the model's owned
serializable properties). -/
structure SchemaModel where
  isPresent : Bool
  hasDefinition : Bool
  name : JSValue
  ownedPropertyJSON : JSValue

/-- The promise returned by `validateAgainstSchema`: either immediately
rejected with a message, or resolved with the server's response. -/
inductive PostOutcome where
  | rejected (msg : String)
  | resolved (response : JSValue)

/-- `validateAgainstSchema(model)`: reject without any network call when
`!(model && model.modelDefinition && model.modelDefinition.name)`;
otherwise POST the owned properties to `['schemas', name].join('/')` and
pass the server's response through.  The HTTP layer is the abstract
function `post`; the second component records every POST issued. -/
def validateAgainstSchema (post : String → JSValue → JSValue) (model : SchemaModel) :
    PostOutcome × List (String × JSValue) :=
  if !(model.isPresent && model.hasDefinition && jsTruthy model.name) then
    (.rejected "model.modelDefinition.name can not be found", [])
  else
    let path := "schemas/" ++ jsToString model.name
    (.resolved (post path model.ownedPropertyJSON), [(path, model.ownedPropertyJSON)])

/-- Rule `{type: 'PHONENUMBER', min: 10}`. -/
def phoneRuleMin10 : JSValue := .obj (.str "PHONENUMBER") (.num 10) .undefined .undefined

/-- Rule `{type: 'PHONENUMBER', max: 2}`. -/
def phoneRuleMax2 : JSValue := .obj (.str "PHONENUMBER") .undefined (.num 2) .undefined

/-- Rule `{type: 'NUMBER', min: 5, max: 10}`. -/
def numberRule : JSValue := .obj (.str "NUMBER") (.num 5) (.num 10) .undefined

/-- Rule `{type: 'NUMBER', min: '10'}` (a numeric-string bound). -/
def strBoundRule : JSValue := .obj (.str "NUMBER") (.str "10") .undefined .undefined

/-- Rule `{type: 'INTEGER'}`. -/
def integerRule : JSValue := .obj (.str "INTEGER") .undefined .undefined .undefined

/-- Rule `{type: 'TEXT', min: 2, max: 4}`. -/
def textRule24 : JSValue := .obj (.str "TEXT") (.num 2) (.num 4) .undefined

/-- Rule `{type: 'TEXT', max: 5}`. -/
def textRuleMax5 : JSValue := .obj (.str "TEXT") .undefined (.num 5) .undefined

/-- Rule `{type: 'FOOBAR'}` (unknown type tag). -/
def foobarRule : JSValue := .obj (.str "FOOBAR") .undefined .undefined .undefined

/-- Rule `{type: 'FOOBAR', required: false}`. -/
def foobarOptionalRule : JSValue := .obj (.str "FOOBAR") .undefined .undefined (.bool false)

/-- The membership test the `typeValidation` switch performs on a string
tag: `true` exactly on the fixed `TypeTag` enumeration. -/
def knownTag (s : String) : Bool :=
  s == "INTEGER" || s == "NUMBER" || s == "COLLECTION" || s == "PHONENUMBER"
    || s == "EMAIL" || s == "URL" || s == "COLOR" || s == "PASSWORD"
    || s == "IDENTIFIER" || s == "TEXT" || s == "COMPLEX" || s == "DATE"
    || s == "REFERENCE" || s == "BOOLEAN" || s == "CONSTANT"

section Lemmas

lemma strictEqFalse_eq_false_of (r : JSValue)
    (h : r = .undefined ∨ jsTruthy r = true) : strictEqFalse r = false := by
  rcases h with rfl | h
  · rfl
  · cases r <;> try rfl
    case bool b =>
      cases b
      · simp [jsTruthy] at h
      · rfl

lemma numberMinMax_not_numeric (v vs : JSValue) (h : isNumeric v = false) :
    numberMinMaxValidation v vs = { status := true, messages := [] } := by
  unfold numberMinMaxValidation
  simp [h]

lemma numberMinMax_status (v vs : JSValue) (h : isNumeric v = true) :
    (numberMinMaxValidation v vs).status
      = (isLargerThanMin v vs.min && isSmallerThanMax v vs.max) := by
  unfold numberMinMaxValidation
  cases hL : isLargerThanMin v vs.min <;> cases hS : isSmallerThanMax v vs.max <;>
    simp [h, hL, hS]

lemma isLargerThanMin_eq_false_iff (v m : JSValue) :
    isLargerThanMin v m = false ↔ (isNumeric m = true ∧ jsGE v m = false) := by
  unfold isLargerThanMin
  cases h : isNumeric m <;> simp [h]

lemma isSmallerThanMax_eq_false_iff (v m : JSValue) :
    isSmallerThanMax v m = false ↔ (isNumeric m = true ∧ jsLE v m = false) := by
  unfold isSmallerThanMax
  cases h : isNumeric m <;> simp [h]

lemma jsGE_not_both_str (a b : JSValue) (h : (isString a && isString b) = false) :
    jsGE a b = decide (toNum a ≥ toNum b) := by
  cases a <;> cases b <;> try rfl
  all_goals simp [isString] at h

lemma jsLE_not_both_str (a b : JSValue) (h : (isString a && isString b) = false) :
    jsLE a b = decide (toNum a ≤ toNum b) := by
  cases a <;> cases b <;> try rfl
  all_goals simp [isString] at h

lemma lengthMinMax_not_seq (v vs : JSValue) (h : (isArray v || isString v) = false) :
    lengthMinMaxValidation v vs = { status := true, messages := [] } := by
  unfold lengthMinMaxValidation
  simp [h]

lemma lengthMinMax_status (v vs : JSValue) (h : (isArray v || isString v) = true) :
    (lengthMinMaxValidation v vs).status
      = (isLargerThanLength v vs.min && isSmallerThanLength v vs.max) := by
  unfold lengthMinMaxValidation
  cases hL : isLargerThanLength v vs.min <;> cases hS : isSmallerThanLength v vs.max <;>
    simp [h, hL, hS]

lemma isLargerThanLength_eq_false_iff (v m : JSValue) :
    isLargerThanLength v m = false
      ↔ (isInteger m = true
          ∧ ¬(jsTruthy v = true ∧ isInteger (jsLength v) = true
              ∧ toNum m ≤ toNum (jsLength v))) := by
  unfold isLargerThanLength
  cases h : isInteger m <;> simp [h, and_assoc]

lemma isSmallerThanLength_eq_false_iff (v m : JSValue) :
    isSmallerThanLength v m = false
      ↔ (isInteger m = true
          ∧ ¬(jsTruthy v = true ∧ isInteger (jsLength v) = true
              ∧ toNum (jsLength v) ≤ toNum m)) := by
  unfold isSmallerThanLength
  cases h : isInteger m <;> simp [h, and_assoc]

lemma isInteger_jsLength (v : JSValue) (h : (isArray v || isString v) = true) :
    isInteger (jsLength v) = true := by
  cases v <;> simp [isArray, isString, jsLength, isInteger] at h ⊢

lemma minMaxValidation_eq (r : ValidationResult) (v vs : JSValue) :
    minMaxValidation r v vs
      = { status := r.status && (numberMinMaxValidation v vs).status
            && (lengthMinMaxValidation v vs).status,
          messages := r.messages
            ++ (if (numberMinMaxValidation v vs).status then []
                else (numberMinMaxValidation v vs).messages)
            ++ (if (lengthMinMaxValidation v vs).status then []
                else (lengthMinMaxValidation v vs).messages) } := by
  unfold minMaxValidation
  cases hn : (numberMinMaxValidation v vs).status <;>
    cases hl : (lengthMinMaxValidation v vs).status <;>
      simp [hn, hl]

lemma typeSpecificValidation_none (registry : List (String × List TypeSpecificValidator))
    (r : ValidationResult) (v t : JSValue)
    (h : (if jsTruthy t then (registry.find? (fun p => p.1 == jsToString t)).map Prod.snd
          else none) = none) :
    typeSpecificValidation registry r v t = r := by
  unfold typeSpecificValidation
  rw [h]

lemma typeValidation_unknown (v : JSValue) (tag : String) (h : knownTag tag = false) :
    typeValidation v (.str tag)
      = (false, [[.str "No type validator found for", .str tag]]) := by
  simp only [knownTag, Bool.or_eq_false_iff] at h
  simp [typeValidation, h.1, h.2]

lemma value_msg_ne_typeMsg (pre suffix : String) (h : 24 < pre.length) :
    ((pre ++ suffix) == "This is not a valid type") = false := by
  rw [beq_eq_false_iff_ne]
  intro hEq
  have hl := congrArg String.length hEq
  rw [String.length_append] at hl
  have h24 : ("This is not a valid type").length = 24 := rfl
  omega

lemma largerMsg_ne (x : String) :
    (("Value needs to be larger than or equal to " ++ x) == "This is not a valid type")
      = false := value_msg_ne_typeMsg _ _ (by decide)

lemma smallerMsg_ne (x : String) :
    (("Value needs to be smaller than or equal to " ++ x) == "This is not a valid type")
      = false := value_msg_ne_typeMsg _ _ (by decide)

lemma longerMsg_ne (x : String) :
    (("Value needs to be longer than or equal to " ++ x) == "This is not a valid type")
      = false := value_msg_ne_typeMsg _ _ (by decide)

lemma shorterMsg_ne (x : String) :
    (("Value needs to be shorter than or equal to " ++ x) == "This is not a valid type")
      = false := value_msg_ne_typeMsg _ _ (by decide)

lemma countP_typeMsg_number (v vs : JSValue) :
    (numberMinMaxValidation v vs).messages.countP
      (fun m => m.message == "This is not a valid type") = 0 := by
  unfold numberMinMaxValidation
  split_ifs <;> simp [List.countP_cons, largerMsg_ne, smallerMsg_ne]

lemma countP_typeMsg_length (v vs : JSValue) :
    (lengthMinMaxValidation v vs).messages.countP
      (fun m => m.message == "This is not a valid type") = 0 := by
  unfold lengthMinMaxValidation
  split_ifs <;> simp [List.countP_cons, longerMsg_ne, shorterMsg_ne]

lemma registry_miss_unknown (registry : List (String × List TypeSpecificValidator))
    (tag : String) (hreg : registry = typeSpecificValidations)
    (hunk : knownTag tag = false) :
    (if jsTruthy (JSValue.str tag) then
        (registry.find? (fun p => p.1 == jsToString (JSValue.str tag))).map Prod.snd
      else none) = none := by
  have hne : ¬(tag = "PHONENUMBER") := by
    intro hEq
    subst hEq
    simp [knownTag] at hunk
  have hPN : ("PHONENUMBER" == tag) = false := by
    rw [beq_eq_false_iff_ne]
    exact fun e => hne e.symm
  subst hreg
  cases hj : jsTruthy (JSValue.str tag)
  · simp
  · simp [typeSpecificValidations, List.find?, jsToString, hPN]

lemma runChecks_unknown (registry : List (String × List TypeSpecificValidator))
    (vs v : JSValue) (tag : String)
    (hreg : registry = typeSpecificValidations)
    (htag : vs.type = .str tag) (hunk : knownTag tag = false) :
    runChecks registry vs v
      = (minMaxValidation
           { status := false,
             messages := [{ message := "This is not a valid type", value := v }] } v vs,
         [[.str "No type validator found for", .str tag]]) := by
  have htv := typeValidation_unknown v tag hunk
  have hnone := registry_miss_unknown registry tag hreg hunk
  simp only [runChecks, htag, htv]
  simp [typeSpecificValidation_none registry _ v (.str tag) hnone]

end Lemmas

/-- C1: the claimed invariant — `status` true iff `messages` empty, and
`status` monotonically `false` once set — FAILS on the code: for the rule
`{type: 'PHONENUMBER', min: 10}` and the value `"+47 123"`, the length
check sets `status` to `false` and appends a message, but
`typeSpecificValidation` then ASSIGNS `status` the outcome of the
PHONENUMBER reduce (which passes), returning `status: true` with a
non-empty `messages` list. -/
theorem validate_phonenumber_flips_status :
    validate phoneRuleMin10 (.str "+47 123")
      = .ok { status := true,
              messages := [{ message := "Value needs to be longer than or equal to 10",
                             value := .str "+47 123" }] } := rfl

/-- C2: the claimed composition — final `status` is the AND of the three
checks — FAILS on the code: for `{type: 'PHONENUMBER', max: 2}` and
`"+47 123"` the type check passes, the length check fails (appending its
message), and the type-specific check passes, so the AND is `false`; yet
`validate` returns `status: true` because `typeSpecificValidation`
overwrites the accumulated status.  The message concatenation itself is
as claimed. -/
theorem validate_phonenumber_status_not_and :
    validate phoneRuleMax2 (.str "+47 123")
      = .ok { status := true,
              messages := [{ message := "Value needs to be shorter than or equal to 2",
                             value := .str "+47 123" }] } := rfl

/-- C3: for every rule object with `required === false` and every falsy
value, `validate` returns `{status: true, messages: []}` immediately,
regardless of the rule's `type`/`min`/`max`, leaving the module state
untouched (no check runs, nothing is logged). -/
theorem validate_required_false_short_circuit (s : ValState) (vs v : JSValue)
    (hobj : isObject vs = true) (hreq : strictEqFalse vs.required = true)
    (hfalsy : jsTruthy v = false) :
    validateRun s vs v = (.ok { status := true, messages := [] }, s) := by
  unfold validateRun
  simp [hobj, hreq, hfalsy]

/-- Witness for C3: the rule `{type: 'INTEGER', min: 1, max: 2, required:
false}` with the falsy value `''` short-circuits to success. -/
theorem validate_required_false_short_circuit_witness :
    validateRun initState (.obj (.str "INTEGER") (.num 1) (.num 2) (.bool false)) (.str "")
      = (.ok { status := true, messages := [] }, initState) :=
  validate_required_false_short_circuit initState
    (.obj (.str "INTEGER") (.num 1) (.num 2) (.bool false)) (.str "") rfl rfl rfl

/-- C5 counterexample: the numeric-string value `"9"` against the
numeric-string bound `min: "10"` REFUTES the claimed numeric
characterization: the value is numeric, the min is numeric, and
numerically `9 < 10`, so the claim predicts a min-bound failure — but the
program compares the two STRINGS lexicographically (`"9" >= "10"` is true
since `'9' > '1'`), so the sub-check passes with no message. -/
theorem numberMinMax_lexicographic_cex :
    numberMinMaxValidation (.str "9") strBoundRule = { status := true, messages := [] }
    ∧ isNumeric (.str "9") = true
    ∧ isNumeric strBoundRule.min = true
    ∧ toNum (.str "9") < toNum strBoundRule.min := by
  refine ⟨rfl, rfl, rfl, ?_⟩
  decide

/-- C5 amended: the numeric-bounds sub-check applies only to numeric
values; on a numeric value it fails exactly when a numeric `min` or a
numeric `max` is violated under JavaScript's relational comparison —
which is the numeric comparison except when both the value and the bound
are strings, in which case it is lexicographic; each failed bound
contributes its own message; and concretely for
`{type: 'NUMBER', min: 5, max: 10}` the value `12` yields status `false`
with exactly the max-bound message while `7` yields status `true`. -/
theorem numberMinMax_characterization :
    (∀ v vs : JSValue, isNumeric v = false →
        numberMinMaxValidation v vs = { status := true, messages := [] })
    ∧ (∀ v vs : JSValue, isNumeric v = true →
        (((numberMinMaxValidation v vs).status = false)
          ↔ ((isNumeric vs.min = true ∧ jsGE v vs.min = false)
              ∨ (isNumeric vs.max = true ∧ jsLE v vs.max = false))))
    ∧ (∀ a b : JSValue, isNumeric a = true → isNumeric b = true →
        (isString a && isString b) = false →
        (jsGE a b = decide (toNum a ≥ toNum b)) ∧ (jsLE a b = decide (toNum a ≤ toNum b)))
    ∧ (∀ v vs : JSValue, isNumeric v = true → isNumeric vs.min = true →
        jsGE v vs.min = false →
        { message := "Value needs to be larger than or equal to " ++ jsToString vs.min,
          value := v } ∈ (numberMinMaxValidation v vs).messages)
    ∧ (∀ v vs : JSValue, isNumeric v = true → isNumeric vs.max = true →
        jsLE v vs.max = false →
        { message := "Value needs to be smaller than or equal to " ++ jsToString vs.max,
          value := v } ∈ (numberMinMaxValidation v vs).messages)
    ∧ validate numberRule (.num 12)
        = .ok { status := false,
                messages := [{ message := "Value needs to be smaller than or equal to 10",
                               value := .num 12 }] }
    ∧ validate numberRule (.num 7) = .ok { status := true, messages := [] } := by
  refine ⟨numberMinMax_not_numeric, ?_, ?_, ?_, ?_, rfl, rfl⟩
  · intro v vs h
    rw [numberMinMax_status v vs h, Bool.and_eq_false_iff,
      isLargerThanMin_eq_false_iff, isSmallerThanMax_eq_false_iff]
  · intro a b _ _ h
    exact ⟨jsGE_not_both_str a b h, jsLE_not_both_str a b h⟩
  · intro v vs h hmin hge
    have hL : isLargerThanMin v vs.min = false :=
      (isLargerThanMin_eq_false_iff v vs.min).mpr ⟨hmin, hge⟩
    unfold numberMinMaxValidation
    cases hS : isSmallerThanMax v vs.max <;> simp [h, hL, hS]
  · intro v vs h hmax hle
    have hS : isSmallerThanMax v vs.max = false :=
      (isSmallerThanMax_eq_false_iff v vs.max).mpr ⟨hmax, hle⟩
    unfold numberMinMaxValidation
    cases hL : isLargerThanMin v vs.min <;> simp [h, hL, hS]

/-- Witness for the amended C5: the non-numeric value `"abc"` passes the
numeric sub-check untouched; the numeric value `12` against
`{min: 5, max: 10}` is characterized exactly; the number/number pairing
`12` vs `5` compares numerically; and the value `3` failing `min: 5`
receives the min-bound message. -/
theorem numberMinMax_characterization_witness :
    numberMinMaxValidation (.str "abc") numberRule = { status := true, messages := [] }
    ∧ (((numberMinMaxValidation (.num 12) numberRule).status = false)
        ↔ ((isNumeric numberRule.min = true ∧ jsGE (.num 12) numberRule.min = false)
            ∨ (isNumeric numberRule.max = true ∧ jsLE (.num 12) numberRule.max = false)))
    ∧ (jsGE (.num 12) (.num 5) = decide (toNum (.num 12) ≥ toNum (.num 5)))
    ∧ { message := "Value needs to be larger than or equal to " ++ jsToString numberRule.min,
        value := JSValue.num 3 } ∈ (numberMinMaxValidation (.num 3) numberRule).messages :=
  ⟨numberMinMax_characterization.1 (.str "abc") numberRule rfl,
   numberMinMax_characterization.2.1 (.num 12) numberRule rfl,
   (numberMinMax_characterization.2.2.1 (.num 12) (.num 5) rfl rfl rfl).1,
   numberMinMax_characterization.2.2.2.1 (.num 3) numberRule rfl rfl rfl⟩

/-- C6: `validate` throws its `TypeError` exactly when the first argument
is not an object; for every object argument it does not throw on this
precondition. -/
theorem validate_throws_iff_not_object (s : ValState) (vs v : JSValue) :
    ((validateRun s vs v).1 = .error "validationSettings should be of type object")
      ↔ isObject vs = false := by
  unfold validateRun
  cases hobj : isObject vs <;> simp
  split <;> simp

/-- C9: `validate` is deterministic and free of observable side effects
on the state it reads: a call leaves the type-specific validator registry
unchanged, and an immediately repeated call with the same rule and value
(on the state the first call returned) yields a structurally equal
result. -/
theorem validate_deterministic (s : ValState) (vs v : JSValue) :
    ((validateRun s vs v).2.registry = s.registry)
    ∧ ((validateRun ((validateRun s vs v).2) vs v).1 = (validateRun s vs v).1) := by
  unfold validateRun
  cases hobj : isObject vs <;>
    cases hsc : strictEqFalse vs.required && !jsTruthy v <;>
      simp [hobj, hsc]

/-- C10: the short-circuit requires `required` to be STRICTLY `false`:
whenever `required` is absent (`undefined`) or truthy, `validate` runs the
full check pipeline (type, bounds, type-specific) on any value; in
particular `validate({type: 'INTEGER'}, null)` returns status `false`
with a type message instead of short-circuiting. -/
theorem validate_requires_strict_false :
    (∀ (s : ValState) (vs v : JSValue), isObject vs = true →
        (vs.required = .undefined ∨ jsTruthy vs.required = true) →
        validateRun s vs v
          = (.ok (runChecks s.registry vs v).1,
             { s with log := s.log ++ (runChecks s.registry vs v).2 }))
    ∧ validate integerRule .null
        = .ok { status := false,
                messages := [{ message := "This is not a valid type", value := .null }] } := by
  refine ⟨?_, rfl⟩
  intro s vs v hobj hreq
  have h := strictEqFalse_eq_false_of vs.required hreq
  unfold validateRun
  simp [hobj, h]

/-- Witness for C10: with `required` absent, even the falsy value `''`
goes through the full check pipeline. -/
theorem validate_requires_strict_false_witness :
    validateRun initState integerRule (.str "")
      = (.ok (runChecks initState.registry integerRule (.str "")).1,
         { initState with
            log := initState.log ++ (runChecks initState.registry integerRule (.str "")).2 }) :=
  validate_requires_strict_false.1 initState integerRule (.str "") rfl (Or.inl rfl)

/-- C4 counterexample: the empty string with rule `{type: 'TEXT', max: 5}`
REFUTES the claim as stated: its length 0 violates neither bound
(`min` is not an integer, `0 > 5` is false), yet the length sub-check
fails, because `isSmallerThanLength` wraps the comparison in
`Boolean(value && ...)` and the empty string is falsy. -/
theorem lengthMinMax_empty_string_cex :
    ((lengthMinMaxValidation (.str "") textRuleMax5).status = false)
    ∧ ¬((isInteger textRuleMax5.min = true
          ∧ toNum (jsLength (.str "")) < toNum textRuleMax5.min)
        ∨ (isInteger textRuleMax5.max = true
          ∧ toNum textRuleMax5.max < toNum (jsLength (.str "")))) := by
  refine ⟨rfl, ?_⟩
  decide

/-- C4 amended: for every string or array value, the length-bounds
sub-check fails exactly when `value.length < min` or `value.length > max`
(each bound constraining only when it is an integer) — EXCEPT for the
empty string (the only falsy string/array), which fails whichever bound is
an integer regardless of its length, due to the truthiness guard in
`isLargerThanLength`/`isSmallerThanLength`. -/
theorem lengthMinMax_characterization :
    ∀ v vs : JSValue, (isArray v || isString v) = true →
      ((jsTruthy v = true →
          (((lengthMinMaxValidation v vs).status = false)
            ↔ ((isInteger vs.min = true ∧ toNum (jsLength v) < toNum vs.min)
                ∨ (isInteger vs.max = true ∧ toNum vs.max < toNum (jsLength v)))))
        ∧ (jsTruthy v = false →
          (((lengthMinMaxValidation v vs).status = false)
            ↔ (isInteger vs.min = true ∨ isInteger vs.max = true)))) := by
  intro v vs hseq
  have hlen := isInteger_jsLength v hseq
  have hstat := lengthMinMax_status v vs hseq
  constructor
  · intro ht
    rw [hstat, Bool.and_eq_false_iff, isLargerThanLength_eq_false_iff,
      isSmallerThanLength_eq_false_iff]
    simp [ht, hlen, not_le]
  · intro hf
    rw [hstat, Bool.and_eq_false_iff, isLargerThanLength_eq_false_iff,
      isSmallerThanLength_eq_false_iff]
    simp [hf]

/-- Witness for the amended C4: the truthy string `"a"` against
`{type: 'TEXT', min: 2, max: 4}` is characterized exactly by the length
comparison. -/
theorem lengthMinMax_characterization_witness :
    ((lengthMinMaxValidation (.str "a") textRule24).status = false)
      ↔ ((isInteger textRule24.min = true
            ∧ toNum (jsLength (.str "a")) < toNum textRule24.min)
          ∨ (isInteger textRule24.max = true
            ∧ toNum textRule24.max < toNum (jsLength (.str "a")))) :=
  (lengthMinMax_characterization (.str "a") textRule24 rfl).1 rfl

/-- C7 counterexample: the unknown tag `'FOOBAR'` combined with
`required: false` and the falsy value `null` REFUTES the claim as stated:
`validate` short-circuits to `{status: true, messages: []}` and leaves the
state untouched — no diagnostic is logged and no type failure is
reported. -/
theorem validate_unknown_tag_cex :
    validateRun initState foobarOptionalRule .null
      = (.ok { status := true, messages := [] }, initState) := rfl

/-- C7 amended: for every rule whose type is a string tag outside the
fixed TypeTag enumeration, provided the required-false short-circuit does
not apply, `validate` does not throw: it returns a result with status
`false` whose first message is the type message (and which contains
exactly one type message), and the diagnostic naming the unknown tag is
appended to the log. -/
theorem validate_unknown_tag (s : ValState) (vs v : JSValue) (tag : String)
    (hreg : s.registry = typeSpecificValidations)
    (hobj : isObject vs = true)
    (htag : vs.type = .str tag)
    (hunk : knownTag tag = false)
    (hsc : (strictEqFalse vs.required && !jsTruthy v) = false) :
    ∃ r, (validateRun s vs v).1 = .ok r
      ∧ r.status = false
      ∧ r.messages.head? = some { message := "This is not a valid type", value := v }
      ∧ r.messages.countP (fun m => m.message == "This is not a valid type") = 1
      ∧ (validateRun s vs v).2.log
          = s.log ++ [[.str "No type validator found for", .str tag]] := by
  have hrc := runChecks_unknown s.registry vs v tag hreg htag hunk
  have hrun : validateRun s vs v
      = (.ok (minMaxValidation
               { status := false,
                 messages := [{ message := "This is not a valid type", value := v }] } v vs),
         { s with log := s.log ++ [[.str "No type validator found for", .str tag]] }) := by
    unfold validateRun
    simp [hobj, hsc, hrc]
  refine ⟨_, by rw [hrun], ?_, ?_, ?_, by rw [hrun]⟩
  · rw [minMaxValidation_eq]
    simp
  · rw [minMaxValidation_eq]
    simp
  · rw [minMaxValidation_eq]
    cases hn : (numberMinMaxValidation v vs).status <;>
      cases hl : (lengthMinMaxValidation v vs).status <;>
        simp [List.countP_append, List.countP_cons,
          countP_typeMsg_number, countP_typeMsg_length]

/-- Witness for the amended C7: the rule `{type: 'FOOBAR'}` with value
`3` yields a failed result and logs the diagnostic. -/
theorem validate_unknown_tag_witness :
    ((validateRun initState foobarRule (.num 3)).1.map ValidationResult.status
        = .ok false)
    ∧ (validateRun initState foobarRule (.num 3)).2.log
        = initState.log ++ [[.str "No type validator found for", .str "FOOBAR"]] := by
  obtain ⟨r, h1, h2, h3, h4, h5⟩ :=
    validate_unknown_tag initState foobarRule (.num 3) "FOOBAR" rfl rfl rfl (by decide) rfl
  refine ⟨?_, h5⟩
  rw [h1]
  simp [Except.map, h2]

/-- C8: `validateAgainstSchema` rejects immediately with the fixed
message and issues no POST whenever the model does not expose a truthy
schema name; otherwise it issues exactly one POST of the model's owned
properties to `schemas/<name>` and passes the server's response through
unmodified. -/
theorem validateAgainstSchema_spec (post : String → JSValue → JSValue) (m : SchemaModel) :
    (((m.isPresent && m.hasDefinition && jsTruthy m.name) = false) →
      validateAgainstSchema post m
        = (.rejected "model.modelDefinition.name can not be found", []))
    ∧ (((m.isPresent && m.hasDefinition && jsTruthy m.name) = true) →
      validateAgainstSchema post m
        = (.resolved (post ("schemas/" ++ jsToString m.name) m.ownedPropertyJSON),
           [("schemas/" ++ jsToString m.name, m.ownedPropertyJSON)])) := by
  constructor <;> intro h <;> simp [validateAgainstSchema, h]

/-- Witness for C8: a model with an empty (falsy) name is rejected with
no POST; a model named `user` produces exactly one POST to
`schemas/user` whose response is returned unmodified. -/
theorem validateAgainstSchema_spec_witness :
    validateAgainstSchema (fun p b => .arr [.str p, b]) ⟨true, true, .str "", .null⟩
      = (.rejected "model.modelDefinition.name can not be found", [])
    ∧ validateAgainstSchema (fun p b => .arr [.str p, b])
        ⟨true, true, .str "user", .str "payload"⟩
      = (.resolved (.arr [.str "schemas/user", .str "payload"]),
         [("schemas/user", .str "payload")]) := by
  constructor
  · exact (validateAgainstSchema_spec (fun p b => .arr [.str p, b])
      ⟨true, true, .str "", .null⟩).1 rfl
  · exact (validateAgainstSchema_spec (fun p b => .arr [.str p, b])
      ⟨true, true, .str "user", .str "payload"⟩).2 rfl

end D2
